import Mathlib

/-!
Verification of the iDRAC-Set-up gateway (Rust) against its specification.

The development shallowly embeds the three core components:

* `Database` (src/database.rs) — the credential store.  The SQLite file is
  modelled as an in-memory list of `users` rows together with the next
  AUTOINCREMENT id.  bcrypt's salted `hash` and `verify` are external
  library calls; they are modelled as explicit function parameters
  `hashFn : String → String` and `verifyFn : String → String → Bool`
  (the salt nondeterminism is folded into the abstract `hashFn`).
  Storage I/O failures (pool exhaustion, unreachable file) are external
  events and are not made to occur in the in-memory model; the error type
  still mirrors the rusqlite error kinds the code can surface.

* `IdracClient` (src/idrac.rs) — the remote power-control client.  The
  network is external, so each operation is modelled as a pure function of
  the outcome of the HTTP round trip: either a connect failure (the
  `reqwest` send error, carried as its message) or a response consisting of
  a numeric status code and a body.  `reqwest::StatusCode` renders with its
  numeric code first, so the status is modelled by its numeric code.

* the handlers (src/handlers.rs) — each handler is a pure function of the
  session-cookie lookup result and the outcome of the store / remote calls
  it makes, and additionally returns the list of calls it actually issued,
  so that "no remote call is attempted" is a statement about the model.
-/

/-- A row of the `users` table (struct `User` in src/database.rs). -/
structure User where
  id : Int
  username : String
  password_hash : String
  deriving Repr, DecidableEq

/-- The state of the SQLite `users` table behind the pool: the rows plus the
next AUTOINCREMENT value for the `id` primary key column. -/
structure Database where
  users : List User
  nextId : Int
  deriving Repr, DecidableEq

/-- A freshly created, empty storage location: no rows, AUTOINCREMENT at 1. -/
def Database.empty : Database := ⟨[], 1⟩

/-- The error kinds of `rusqlite::Result` that src/database.rs can surface:
the UNIQUE-constraint violation on `users.username` (a `SqliteFailure` with
code `ConstraintViolation`), the `ToSqlConversionFailure` wrapper the code
uses for pool/fs/bcrypt errors, and `QueryReturnedNoRows`. -/
inductive DbError where
  | sqliteConstraintUnique
  | toSqlConversionFailure (msg : String)
  | queryReturnedNoRows
  deriving Repr, DecidableEq

/-- Display of a `DbError`, as interpolated by `format!("{}", e)`. -/
def DbError.toMessage : DbError → String
  | .sqliteConstraintUnique => "UNIQUE constraint failed: users.username"
  | .toSqlConversionFailure msg => msg
  | .queryReturnedNoRows => "Query returned no rows"

/-- `Database::has_users`: `SELECT COUNT(*) FROM users` compared with 0. -/
def Database.has_users (db : Database) : Bool :=
  !db.users.isEmpty

/-- `Database::create_user`: hashes the password, then
`INSERT INTO users (username, password_hash) VALUES (?1, ?2)`.  The UNIQUE
constraint on `username` rejects a duplicate row; otherwise the row is
appended with the AUTOINCREMENT id and `last_insert_rowid()` is returned. -/
def Database.create_user (hashFn : String → String) (db : Database)
    (username password : String) : Except DbError (Int × Database) :=
  let password_hash := hashFn password
  if db.users.any (fun u => u.username == username) then
    .error .sqliteConstraintUnique
  else
    .ok (db.nextId, ⟨db.users ++ [⟨db.nextId, username, password_hash⟩], db.nextId + 1⟩)

/-- `Database::verify_user`: `SELECT id, username, password_hash FROM users
WHERE username = ?1` via `query_row` (the first matching row, or
`QueryReturnedNoRows` which the code maps to `Ok(None)`); if a row is found,
bcrypt-verify the supplied plaintext against the stored hash and return the
row on success, `Ok(None)` on mismatch. -/
def Database.verify_user (verifyFn : String → String → Bool) (db : Database)
    (username password : String) : Except DbError (Option User) :=
  match db.users.find? (fun u => u.username == username) with
  | none => .ok none
  | some user =>
    if verifyFn password user.password_hash then .ok (some user) else .ok none

/-- `Database::get_user_by_id`: `SELECT id, username, password_hash FROM users
WHERE id = ?1`, with `QueryReturnedNoRows` mapped to `Ok(None)`. -/
def Database.get_user_by_id (db : Database) (user_id : Int) :
    Except DbError (Option User) :=
  match db.users.find? (fun u => u.id == user_id) with
  | none => .ok none
  | some user => .ok (some user)

/-- `Database::new`: directory creation, file opening and the idempotent
`CREATE TABLE IF NOT EXISTS` do not change the rows of the table; then, if
no users exist, the default `admin` account with an empty password is
created through `create_user`. -/
def Database.new (hashFn : String → String) (db : Database) :
    Except DbError Database :=
  if !db.has_users then
    match db.create_user hashFn "admin" "" with
    | .ok (_, db2) => .ok db2
    | .error e => .error e
  else
    .ok db

/-- The store state left behind by `Database::new` on a freshly created,
empty storage location: the single bootstrap `admin` row with the hash of
the empty password. -/
def bootstrapDb (hashFn : String → String) : Database :=
  ⟨[⟨1, "admin", hashFn ""⟩], 2⟩

/-- Substring containment, used to state that an error or success message
carries a given piece of text. -/
def containsSubstring (s pat : String) : Prop :=
  ∃ pre post, s = pre ++ pat ++ post

/-- The "successful" class of HTTP status codes (2xx), the class
`reqwest::StatusCode::is_success` recognises. -/
def httpSuccessClass (status : Nat) : Bool :=
  200 ≤ status && status < 300

/-- A minimal model of a `serde_json::Value`. -/
inductive Json where
  | null
  | bool (b : Bool)
  | num (n : Int)
  | str (s : String)
  | arr (elems : List Json)
  | obj (fields : List (String × Json))
  deriving Repr

/-- `serde_json` string indexing `value[key]`: the field's value when the
value is an object containing the key, `Null` otherwise. -/
def Json.index (j : Json) (key : String) : Json :=
  match j with
  | .obj fields =>
    match fields.find? (fun f => f.1 == key) with
    | some f => f.2
    | none => .null
  | _ => .null

/-- `serde_json::Value::as_str`: `some s` for a JSON string, `none` for any
other shape. -/
def Json.asStr : Json → Option String
  | .str s => some s
  | _ => none

/-- The outcome of one HTTP round trip against the management controller:
either the `reqwest` send error (connection refused, timeout, TLS failure —
carried as its rendered message) or a response.  The response body is kept
in the form the operation consumes it: `text` for the reset action, and a
parse outcome (`serde_json` error message or parsed value) for the status
read. -/
structure RawResponse where
  status : Nat
  text : String
  deriving Repr, DecidableEq

/-- A status-read response: the status code and the outcome of
`response.json::<serde_json::Value>()` on its body. -/
structure JsonResponse where
  status : Nat
  body : Except String Json
  deriving Repr

/-- `IdracClient::get_power_state` (src/idrac.rs): on a send failure, the
connect error; on HTTP 200, parse the body as JSON (failing the call with a
parse error if malformed) and return `data["PowerState"].as_str()
.unwrap_or("Unknown")`; on any other status, an error message embedding the
status. -/
def IdracClient.get_power_state (round : Except String JsonResponse) :
    Except String String :=
  match round with
  | .error e => .error ("Failed to connect to iDRAC: " ++ e)
  | .ok resp =>
    if resp.status == 200 then
      match resp.body with
      | .error e => .error ("Failed to parse response: " ++ e)
      | .ok data => .ok (((data.index "PowerState").asStr).getD "Unknown")
    else
      .error ("Failed to get power state: HTTP " ++ toString resp.status)

/-- `IdracClient::set_power_state` (src/idrac.rs): POSTs
`{"ResetType": reset_type}` to the reset action endpoint; on a send failure,
the connect error; on HTTP 204 or HTTP 200, a success message naming the
reset type; on any other status, an error message embedding the status and
the response body text. -/
def IdracClient.set_power_state (reset_type : String)
    (round : Except String RawResponse) : Except String String :=
  match round with
  | .error e => .error ("Failed to connect to iDRAC: " ++ e)
  | .ok resp =>
    if resp.status == 204 || resp.status == 200 then
      .ok ("Successfully executed: " ++ reset_type)
    else
      .error ("Failed to set power state: HTTP " ++ toString resp.status
        ++ " - " ++ resp.text)

/-- `IdracClient::power_on`: `set_power_state("On")`. -/
def IdracClient.power_on (round : Except String RawResponse) :
    Except String String :=
  IdracClient.set_power_state "On" round

/-- `IdracClient::power_off`: `set_power_state("ForceOff")`. -/
def IdracClient.power_off (round : Except String RawResponse) :
    Except String String :=
  IdracClient.set_power_state "ForceOff" round

/-- `IdracClient::graceful_shutdown`: `set_power_state("GracefulShutdown")`. -/
def IdracClient.graceful_shutdown (round : Except String RawResponse) :
    Except String String :=
  IdracClient.set_power_state "GracefulShutdown" round

/-- The JSON body of an HTTP response produced by the handlers: either an
`ApiResponse { success, message }` or a `StatusResponse
{ success, power_state }`. -/
inductive RespBody where
  | api (success : Bool) (message : String)
  | power (success : Bool) (power_state : String)
  deriving Repr, DecidableEq

/-- An `actix_web::HttpResponse` as the handlers build it: the status code
and the serialized JSON body. -/
structure HttpResponse where
  code : Nat
  body : RespBody
  deriving Repr, DecidableEq

/-- The `HttpResponse::Unauthorized().json(...)` value every power handler
returns on a failed session check. -/
def unauthenticatedResponse : HttpResponse :=
  ⟨401, .api false "Not authenticated"⟩

/-- The result of `session.get::<i64>("user_id")`: a deserialization error,
or the optional stored user id. -/
abbrev SessionGet : Type := Except String (Option Int)

/-- A call issued to the `IdracClient` by a handler. -/
inductive RemoteCall where
  | getPowerState
  | reset (reset_type : String)
  deriving Repr, DecidableEq

/-- `check_auth` (src/handlers.rs): `Ok(user_id)` when the session lookup
returned `Ok(Some(user_id))`, otherwise the 401 response as the error. -/
def check_auth (session : SessionGet) : Except HttpResponse Int :=
  match session with
  | .ok (some user_id) => .ok user_id
  | _ => .error unauthenticatedResponse

/-- `power_status` (src/handlers.rs): session check first; only then is
`idrac.get_power_state()` invoked, its outcome being a function of the
remote round trip `round`.  The second component lists the remote calls the
handler issued. -/
def power_status (session : SessionGet) (round : Except String JsonResponse) :
    HttpResponse × List RemoteCall :=
  match check_auth session with
  | .error _ => (unauthenticatedResponse, [])
  | .ok _ =>
    match IdracClient.get_power_state round with
    | .ok state => (⟨200, .power true state⟩, [.getPowerState])
    | .error e => (⟨500, .api false e⟩, [.getPowerState])

/-- `power_on_handler` (src/handlers.rs). -/
def power_on_handler (session : SessionGet) (round : Except String RawResponse) :
    HttpResponse × List RemoteCall :=
  match check_auth session with
  | .error _ => (unauthenticatedResponse, [])
  | .ok _ =>
    match IdracClient.power_on round with
    | .ok msg => (⟨200, .api true msg⟩, [.reset "On"])
    | .error e => (⟨500, .api false e⟩, [.reset "On"])

/-- `power_off_handler` (src/handlers.rs). -/
def power_off_handler (session : SessionGet) (round : Except String RawResponse) :
    HttpResponse × List RemoteCall :=
  match check_auth session with
  | .error _ => (unauthenticatedResponse, [])
  | .ok _ =>
    match IdracClient.power_off round with
    | .ok msg => (⟨200, .api true msg⟩, [.reset "ForceOff"])
    | .error e => (⟨500, .api false e⟩, [.reset "ForceOff"])

/-- `graceful_shutdown_handler` (src/handlers.rs). -/
def graceful_shutdown_handler (session : SessionGet)
    (round : Except String RawResponse) : HttpResponse × List RemoteCall :=
  match check_auth session with
  | .error _ => (unauthenticatedResponse, [])
  | .ok _ =>
    match IdracClient.graceful_shutdown round with
    | .ok msg => (⟨200, .api true msg⟩, [.reset "GracefulShutdown"])
    | .error e => (⟨500, .api false e⟩, [.reset "GracefulShutdown"])

/-- Rust `str::trim`: the string with leading and trailing whitespace
removed (written over the character list so that it computes by
reduction). -/
def rustTrim (s : String) : String :=
  ⟨((s.data.dropWhile Char.isWhitespace).reverse.dropWhile Char.isWhitespace).reverse⟩

/-- The JSON body of a `/api/register` request. -/
structure RegisterRequest where
  username : String
  password : String
  confirm_password : String
  deriving Repr, DecidableEq

/-- A call issued to the `Database` by the register handler. -/
inductive StoreOp where
  | hasUsers
  | createUser (username : String)
  deriving Repr, DecidableEq

/-- What one run of the register handler produced: the store state after the
run, the session `user_id` it inserted (auto-login), the HTTP response, and
the store calls it issued. -/
structure RegisterOutcome where
  db : Database
  sessionUserId : Option Int
  resp : HttpResponse
  storeCalls : List StoreOp
  deriving Repr, DecidableEq

/-- The register handler (src/handlers.rs) after its `db.has_users()` call:
`usersExist` is the value that call returned, `db` is the store state at the
time the handler continues.  In the running system the two can differ when
another request commits between the check and the insert — the check and the
insert are two separate pool operations, not one transaction. -/
def registerAfterCheck (hashFn : String → String) (form : RegisterRequest)
    (usersExist : Bool) (db : Database) : RegisterOutcome :=
  if usersExist then
    ⟨db, none, ⟨403, .api false "Registration is closed. An account already exists."⟩, []⟩
  else if rustTrim form.username == "" || form.password == "" then
    ⟨db, none, ⟨400, .api false "Username and password are required"⟩, []⟩
  else if form.password != form.confirm_password then
    ⟨db, none, ⟨400, .api false "Passwords do not match"⟩, []⟩
  else if form.password.utf8ByteSize < 8 then
    ⟨db, none, ⟨400, .api false "Password must be at least 8 characters"⟩, []⟩
  else
    match db.create_user hashFn form.username form.password with
    | .ok (user_id, db2) =>
      ⟨db2, some user_id, ⟨200, .api true "Account created successfully"⟩,
        [.createUser form.username]⟩
    | .error e =>
      ⟨db, none, ⟨500, .api false ("Failed to create user: " ++ e.toMessage)⟩,
        [.createUser form.username]⟩

/-- `register` (src/handlers.rs) run without interference: the
`db.has_users()` check immediately followed by the rest of the handler on
the same store state. -/
def register (hashFn : String → String) (form : RegisterRequest)
    (db : Database) : RegisterOutcome :=
  let out := registerAfterCheck hashFn form db.has_users db
  { out with storeCalls := .hasUsers :: out.storeCalls }

/-- The store states reachable through the public interface after startup:
`Database::new` has run on a freshly created, empty storage location, and
afterwards the store is only touched by runs of the register handler
(`login`, `verify_user` and the power handlers never write to the store). -/
inductive Reachable (hashFn : String → String) : Database → Prop where
  | init (db : Database) : Database.new hashFn Database.empty = .ok db →
      Reachable hashFn db
  | step (db : Database) (form : RegisterRequest) : Reachable hashFn db →
      Reachable hashFn (register hashFn form db).db

/-- The interleaved two-registration scenario against the empty store,
request A's run: both requests execute their `db.has_users()` check before
either inserts (the check and the insert are separate pool operations, so
this interleaving is schedulable); request A then continues and inserts
`alice` into the still-empty store. -/
def raceOutcomeA : RegisterOutcome :=
  registerAfterCheck (fun p => "h:" ++ p)
    ⟨"alice", "password123", "password123"⟩
    (Database.has_users Database.empty) Database.empty

/-- Request B's run in the interleaved scenario: its `db.has_users()` check
also read the empty store, but its insert executes after A's commit. -/
def raceOutcomeB : RegisterOutcome :=
  registerAfterCheck (fun p => "h:" ++ p)
    ⟨"bob", "password456", "password456"⟩
    (Database.has_users Database.empty) raceOutcomeA.db

/-!  Theorems. -/

/-- C2: after `Database::new` returns successfully on a freshly created,
empty storage location, `has_users()` is true and exactly one account
exists, with username "admin" and an empty password (the stored hash is the
hash of the empty string, so verifying "admin" with the empty password
succeeds). -/
theorem initialize_bootstraps_admin (hashFn : String → String)
    (verifyFn : String → String → Bool)
    (hv : verifyFn "" (hashFn "") = true) :
    Database.new hashFn Database.empty = .ok (bootstrapDb hashFn)
    ∧ (bootstrapDb hashFn).has_users = true
    ∧ (bootstrapDb hashFn).users.length = 1
    ∧ (bootstrapDb hashFn).users = [⟨1, "admin", hashFn ""⟩]
    ∧ (bootstrapDb hashFn).verify_user verifyFn "admin" "" =
        .ok (some ⟨1, "admin", hashFn ""⟩) := by
  refine ⟨rfl, rfl, rfl, rfl, ?_⟩
  have hfind : (bootstrapDb hashFn).users.find? (fun x => x.username == "admin")
      = some ⟨1, "admin", hashFn ""⟩ := rfl
  unfold Database.verify_user
  rw [hfind]
  simp [hv]

/-- C2 witness: the theorem applied at the identity hash function and
equality-test verifier. -/
theorem initialize_bootstraps_admin_witness :
    ((fun p h => p == h) "" (id "") = true)
    ∧ Database.new id Database.empty = .ok (bootstrapDb id)
    ∧ (bootstrapDb id).has_users = true
    ∧ (bootstrapDb id).users.length = 1
    ∧ (bootstrapDb id).users = [⟨1, "admin", id ""⟩]
    ∧ (bootstrapDb id).verify_user (fun p h => p == h) "admin" "" =
        .ok (some ⟨1, "admin", id ""⟩) :=
  ⟨rfl, initialize_bootstraps_admin id (fun p h => p == h) rfl⟩

/-- C3: `verify_user` returns the stored user row exactly when the username
is found and the supplied plaintext verifies against its stored hash; for
an unknown username and for a wrong password it returns the very same
value, `Ok(None)` — not distinct errors. -/
theorem verify_user_no_match_contract (verifyFn : String → String → Bool)
    (db : Database) (u p : String) :
    (∀ user : User,
      db.verify_user verifyFn u p = .ok (some user) ↔
        db.users.find? (fun x => x.username == u) = some user
        ∧ verifyFn p user.password_hash = true)
    ∧ (db.users.find? (fun x => x.username == u) = none →
        db.verify_user verifyFn u p = .ok none)
    ∧ (∀ user : User,
        db.users.find? (fun x => x.username == u) = some user →
        verifyFn p user.password_hash = false →
        db.verify_user verifyFn u p = .ok none) := by
  refine ⟨fun user => ⟨?_, ?_⟩, fun h1 => ?_, fun user h1 h2 => ?_⟩
  · intro h
    unfold Database.verify_user at h
    rcases hfind : db.users.find? (fun x => x.username == u) with _ | user0
    · rw [hfind] at h; cases h
    · rw [hfind] at h
      by_cases hv : verifyFn p user0.password_hash = true
      · simp only [hv, if_true] at h
        obtain rfl : user0 = user := by simpa using h
        exact ⟨hfind, hv⟩
      · simp [hv] at h
  · rintro ⟨h1, h2⟩
    unfold Database.verify_user
    rw [h1]
    simp [h2]
  · unfold Database.verify_user
    rw [h1]
  · unfold Database.verify_user
    rw [h1]
    simp [h2]

/-- C3 witness: in a store holding only `admin`, an unknown username and a
wrong password produce the identical `Ok(None)` value. -/
theorem verify_user_no_match_contract_witness :
    Database.verify_user (fun p h => p == h) ⟨[⟨1, "admin", "secret"⟩], 2⟩
      "ghost" "x" = .ok none
    ∧ Database.verify_user (fun p h => p == h) ⟨[⟨1, "admin", "secret"⟩], 2⟩
      "admin" "wrong" = .ok none :=
  ⟨(verify_user_no_match_contract (fun p h => p == h)
      ⟨[⟨1, "admin", "secret"⟩], 2⟩ "ghost" "x").2.1 rfl,
   (verify_user_no_match_contract (fun p h => p == h)
      ⟨[⟨1, "admin", "secret"⟩], 2⟩ "admin" "wrong").2.2
      ⟨1, "admin", "secret"⟩ rfl rfl⟩

/-- C4: after a successful `create_user(u, p)`, a second `create_user(u, p2)`
fails with the UNIQUE-constraint violation — a distinct error kind, not the
generic I/O wrapper — regardless of `p2`. -/
theorem create_user_duplicate_username (hashFn : String → String)
    (db : Database) (u p p2 : String) (uid : Int) (db2 : Database)
    (h : db.create_user hashFn u p = .ok (uid, db2)) :
    db2.create_user hashFn u p2 = .error .sqliteConstraintUnique
    ∧ ∀ msg, DbError.sqliteConstraintUnique ≠ DbError.toSqlConversionFailure msg := by
  refine ⟨?_, fun msg hmsg => by cases hmsg⟩
  unfold Database.create_user at h
  by_cases hany : db.users.any (fun x => x.username == u) = true
  · simp [hany] at h
  · simp only [hany, Bool.false_eq_true, if_false] at h
    obtain ⟨h1, h2⟩ := by simpa using h
    subst h2
    unfold Database.create_user
    simp [List.any_append]

/-- C4 witness: creating `admin` twice, the second call fails with the
UNIQUE-constraint error. -/
theorem create_user_duplicate_username_witness :
    Database.create_user id ⟨[⟨1, "admin", ""⟩], 2⟩ "admin" "pw2"
      = .error .sqliteConstraintUnique
    ∧ ∀ msg, DbError.sqliteConstraintUnique ≠ DbError.toSqlConversionFailure msg :=
  create_user_duplicate_username id Database.empty "admin" "" "pw2" 1
    ⟨[⟨1, "admin", ""⟩], 2⟩ rfl

/-- C5: a reset-action call succeeds exactly when the remote response status
is HTTP 200 or HTTP 204; for any other status it fails, with an error
message that contains both the numeric status code and the response body
text. -/
theorem set_power_state_status_contract (rt : String) (status : Nat)
    (body : String) :
    ((∃ msg, IdracClient.set_power_state rt (.ok ⟨status, body⟩) = .ok msg) ↔
      (status = 200 ∨ status = 204))
    ∧ (status = 200 ∨ status = 204 →
        IdracClient.set_power_state rt (.ok ⟨status, body⟩) =
          .ok ("Successfully executed: " ++ rt))
    ∧ (¬(status = 200 ∨ status = 204) →
        IdracClient.set_power_state rt (.ok ⟨status, body⟩) =
          .error ("Failed to set power state: HTTP " ++ toString status
            ++ " - " ++ body)
        ∧ containsSubstring ("Failed to set power state: HTTP "
            ++ toString status ++ " - " ++ body) (toString status)
        ∧ containsSubstring ("Failed to set power state: HTTP "
            ++ toString status ++ " - " ++ body) body) := by
  have hok : status = 200 ∨ status = 204 →
      IdracClient.set_power_state rt (.ok ⟨status, body⟩) =
        .ok ("Successfully executed: " ++ rt) := by
    intro h
    unfold IdracClient.set_power_state
    rcases h with h | h <;> subst h <;> rfl
  have herr : ¬(status = 200 ∨ status = 204) →
      IdracClient.set_power_state rt (.ok ⟨status, body⟩) =
        .error ("Failed to set power state: HTTP " ++ toString status
          ++ " - " ++ body) := by
    intro h
    have h200 : status ≠ 200 := fun hc => h (Or.inl hc)
    have h204 : status ≠ 204 := fun hc => h (Or.inr hc)
    unfold IdracClient.set_power_state
    simp [h200, h204]
  refine ⟨⟨fun ⟨msg, hmsg⟩ => ?_, fun h => ⟨_, hok h⟩⟩, hok, fun h => ⟨herr h, ?_, ?_⟩⟩
  · by_contra hc
    rw [herr hc] at hmsg
    cases hmsg
  · exact ⟨"Failed to set power state: HTTP ", " - " ++ body, by
      simp [String.append_assoc]⟩
  · exact ⟨"Failed to set power state: HTTP " ++ toString status ++ " - ", "", by
      simp [String.append_assoc, String.append_empty]⟩

/-- C5 witness: the spec's own example — HTTP 500 with body "overheated"
fails with a message containing "500" and "overheated". -/
theorem set_power_state_status_contract_witness :
    ¬((500 : Nat) = 200 ∨ (500 : Nat) = 204)
    ∧ (IdracClient.set_power_state "On" (.ok ⟨500, "overheated"⟩) =
        .error ("Failed to set power state: HTTP " ++ toString (500 : Nat)
          ++ " - " ++ "overheated")
      ∧ containsSubstring ("Failed to set power state: HTTP "
          ++ toString (500 : Nat) ++ " - " ++ "overheated") (toString (500 : Nat))
      ∧ containsSubstring ("Failed to set power state: HTTP "
          ++ toString (500 : Nat) ++ " - " ++ "overheated") "overheated") :=
  ⟨by decide, (set_power_state_status_contract "On" 500 "overheated").2.2 (by decide)⟩

/-- C6 counterexample: HTTP 204 is in the successful class of status codes,
yet `get_power_state` fails on a 204 response whose JSON body carries
`PowerState: "On"` — the code accepts exactly HTTP 200, not every success
status. -/
theorem get_power_state_success_class_counterexample :
    httpSuccessClass 204 = true
    ∧ IdracClient.get_power_state
        (.ok ⟨204, .ok (.obj [("PowerState", .str "On")])⟩) =
        .error "Failed to get power state: HTTP 204" :=
  ⟨rfl, rfl⟩

/-- C6 (amended to HTTP 200 exactly): on an HTTP 200 response whose body
parses, `get_power_state` returns the `PowerState` string field, returning
"Unknown" when the field is absent or not a string — the call never fails
merely because the field is missing; on any other status (including other
2xx codes) it returns an error whose message embeds the status code. -/
theorem get_power_state_contract (status : Nat) (pbody : Except String Json) :
    (status = 200 → ∀ data, pbody = .ok data →
      IdracClient.get_power_state (.ok ⟨status, pbody⟩) =
        .ok (((data.index "PowerState").asStr).getD "Unknown")
      ∧ ((data.index "PowerState").asStr = none →
          IdracClient.get_power_state (.ok ⟨status, pbody⟩) = .ok "Unknown"))
    ∧ (status ≠ 200 →
        IdracClient.get_power_state (.ok ⟨status, pbody⟩) =
          .error ("Failed to get power state: HTTP " ++ toString status)
        ∧ containsSubstring ("Failed to get power state: HTTP "
            ++ toString status) (toString status)) := by
  constructor
  · rintro rfl data rfl
    constructor
    · rfl
    · intro hnone
      unfold IdracClient.get_power_state
      simp [hnone]
  · intro h200
    constructor
    · unfold IdracClient.get_power_state
      simp [h200]
    · exact ⟨"Failed to get power state: HTTP ", "", by
        simp [String.append_assoc, String.append_empty]⟩

/-- C6 witness: the spec's own example — an HTTP 200 response with body `{}`
yields "Unknown" rather than failing, and a non-200 status yields an error
embedding the code. -/
theorem get_power_state_contract_witness :
    (IdracClient.get_power_state (.ok ⟨200, .ok (.obj [])⟩) =
        .ok (((Json.obj []|>.index "PowerState").asStr).getD "Unknown")
      ∧ ((Json.obj []|>.index "PowerState").asStr = none →
          IdracClient.get_power_state (.ok ⟨200, .ok (.obj [])⟩) = .ok "Unknown"))
    ∧ (IdracClient.get_power_state (.ok ⟨404, .ok (.obj [])⟩) =
        .error ("Failed to get power state: HTTP " ++ toString (404 : Nat))
      ∧ containsSubstring ("Failed to get power state: HTTP "
          ++ toString (404 : Nat)) (toString (404 : Nat))) :=
  ⟨(get_power_state_contract 200 (.ok (.obj []))).1 rfl (.obj []) rfl,
   (get_power_state_contract 404 (.ok (.obj []))).2 (by decide)⟩

/-- C7: the three public reset operations are each exactly one call to the
shared primitive `set_power_state` with reset types "On", "ForceOff" and
"GracefulShutdown" respectively — identical error semantics — and on a
success status (HTTP 200 or 204) the returned success message contains the
reset type that was sent; in particular `power_off` on an HTTP 204 response
succeeds with a message containing "ForceOff". -/
theorem reset_operations_funnel :
    (∀ round, IdracClient.power_on round =
        IdracClient.set_power_state "On" round)
    ∧ (∀ round, IdracClient.power_off round =
        IdracClient.set_power_state "ForceOff" round)
    ∧ (∀ round, IdracClient.graceful_shutdown round =
        IdracClient.set_power_state "GracefulShutdown" round)
    ∧ (∀ (rt : String) (status : Nat) (body : String),
        status = 200 ∨ status = 204 →
        IdracClient.set_power_state rt (.ok ⟨status, body⟩) =
          .ok ("Successfully executed: " ++ rt)
        ∧ containsSubstring ("Successfully executed: " ++ rt) rt)
    ∧ IdracClient.power_off (.ok ⟨204, ""⟩) = .ok "Successfully executed: ForceOff"
    ∧ containsSubstring "Successfully executed: ForceOff" "ForceOff" := by
  refine ⟨fun _ => rfl, fun _ => rfl, fun _ => rfl, ?_, rfl,
    ⟨"Successfully executed: ", "", rfl⟩⟩
  intro rt status body h
  constructor
  · unfold IdracClient.set_power_state
    rcases h with h | h <;> subst h <;> rfl
  · exact ⟨"Successfully executed: ", "", by
      simp [String.append_assoc, String.append_empty]⟩

/-- C7 witness: the funnel theorem applied at `graceful_shutdown` over an
HTTP 200 response. -/
theorem reset_operations_funnel_witness :
    ((200 : Nat) = 200 ∨ (200 : Nat) = 204)
    ∧ (IdracClient.set_power_state "GracefulShutdown" (.ok ⟨200, ""⟩) =
        .ok ("Successfully executed: " ++ "GracefulShutdown")
      ∧ containsSubstring ("Successfully executed: " ++ "GracefulShutdown")
          "GracefulShutdown") :=
  ⟨Or.inl rfl, reset_operations_funnel.2.2.2.1 "GracefulShutdown" 200 "" (Or.inl rfl)⟩

/-- C1: when the session holds no valid `user_id`, each of the four power
handlers returns the 401 "Not authenticated" response and issues no call to
the `IdracClient` — its remote-call list is empty, whatever the remote
round trip would have produced. -/
theorem power_handlers_reject_unauthenticated (session : SessionGet)
    (h : ∀ uid : Int, session ≠ .ok (some uid)) :
    (∀ round, power_status session round = (unauthenticatedResponse, []))
    ∧ (∀ round, power_on_handler session round = (unauthenticatedResponse, []))
    ∧ (∀ round, power_off_handler session round = (unauthenticatedResponse, []))
    ∧ (∀ round, graceful_shutdown_handler session round =
        (unauthenticatedResponse, [])) := by
  have hc : check_auth session = .error unauthenticatedResponse := by
    match session with
    | .ok (some uid) => exact absurd rfl (h uid)
    | .ok none => rfl
    | .error e => rfl
  refine ⟨fun round => ?_, fun round => ?_, fun round => ?_, fun round => ?_⟩ <;>
    simp only [power_status, power_on_handler, power_off_handler,
      graceful_shutdown_handler, hc]

/-- C1 witness: a session with no stored `user_id` is rejected by the
power-on handler without a remote call, even though the remote round trip
would have succeeded. -/
theorem power_handlers_reject_unauthenticated_witness :
    (∀ uid : Int, (.ok none : SessionGet) ≠ .ok (some uid))
    ∧ power_on_handler (.ok none) (.ok ⟨204, ""⟩) = (unauthenticatedResponse, []) := by
  have h : ∀ uid : Int, (.ok none : SessionGet) ≠ .ok (some uid) := by
    intro uid hcontra
    exact Option.noConfusion (Except.ok.inj hcontra)
  exact ⟨h, (power_handlers_reject_unauthenticated (.ok none) h).2.1 (.ok ⟨204, ""⟩)⟩

/-- C8 counterexample: `verify_user` and `get_user_by_id` return the full
stored `User` struct, whose `password_hash` field is exactly the stored
hash — the hash does leave the component in the returned value. -/
theorem password_hash_exposed_counterexample :
    Database.verify_user (fun x y => x == y) ⟨[⟨1, "alice", "bcrypt-digest"⟩], 2⟩
      "alice" "bcrypt-digest" = .ok (some ⟨1, "alice", "bcrypt-digest"⟩)
    ∧ (User.mk 1 "alice" "bcrypt-digest").password_hash = "bcrypt-digest"
    ∧ Database.get_user_by_id ⟨[⟨1, "alice", "bcrypt-digest"⟩], 2⟩ 1 =
        .ok (some ⟨1, "alice", "bcrypt-digest"⟩) :=
  ⟨rfl, rfl, rfl⟩

/-- C8 (amended): `verify_user` and `get_user_by_id` return the stored row
itself — a member of the `users` table, password_hash field included — so
the hash is exposed to in-process callers in the returned record. -/
theorem password_hash_returned_in_record (verifyFn : String → String → Bool)
    (db : Database) (u p : String) (uid : Int) (user : User) :
    (db.verify_user verifyFn u p = .ok (some user) →
      user ∈ db.users ∧ ∃ stored ∈ db.users, user.password_hash = stored.password_hash)
    ∧ (db.get_user_by_id uid = .ok (some user) →
      user ∈ db.users ∧ ∃ stored ∈ db.users, user.password_hash = stored.password_hash) := by
  constructor
  · intro h
    unfold Database.verify_user at h
    rcases hfind : db.users.find? (fun x => x.username == u) with _ | user0
    · rw [hfind] at h; cases h
    · rw [hfind] at h
      have hmem : user0 ∈ db.users := List.mem_of_find?_eq_some hfind
      by_cases hv : verifyFn p user0.password_hash = true
      · simp only [hv, if_true] at h
        obtain rfl : user0 = user := by simpa using h
        exact ⟨hmem, user0, hmem, rfl⟩
      · simp [hv] at h
  · intro h
    unfold Database.get_user_by_id at h
    rcases hfind : db.users.find? (fun x => x.id == uid) with _ | user0
    · rw [hfind] at h; cases h
    · rw [hfind] at h
      have hmem : user0 ∈ db.users := List.mem_of_find?_eq_some hfind
      obtain rfl : user0 = user := by simpa using h
      exact ⟨hmem, user0, hmem, rfl⟩

/-- C8 amended-claim witness: the record `get_user_by_id` hands back is the
stored row, hash included. -/
theorem password_hash_returned_in_record_witness :
    User.mk 1 "alice" "bcrypt-digest" ∈
      (⟨[⟨1, "alice", "bcrypt-digest"⟩], 2⟩ : Database).users
    ∧ ∃ stored ∈ (⟨[⟨1, "alice", "bcrypt-digest"⟩], 2⟩ : Database).users,
        (User.mk 1 "alice" "bcrypt-digest").password_hash = stored.password_hash :=
  (password_hash_returned_in_record (fun x y => x == y)
    ⟨[⟨1, "alice", "bcrypt-digest"⟩], 2⟩ "alice" "bcrypt-digest" 1
    ⟨1, "alice", "bcrypt-digest"⟩).2 rfl

/-- C9: the register handler's emptiness check and its insert are two
separate store operations, not one transaction.  In the interleaving where
two concurrent registrations both run their `has_users` check against the
empty store before either inserts, both succeed and the store gains two
accounts — the claimed "at most one successful creation transitions the
store from empty to non-empty" is violated by the code. -/
theorem register_check_then_insert_race :
    Database.has_users Database.empty = false
    ∧ raceOutcomeA.resp = ⟨200, .api true "Account created successfully"⟩
    ∧ raceOutcomeB.resp = ⟨200, .api true "Account created successfully"⟩
    ∧ raceOutcomeA.storeCalls = [.createUser "alice"]
    ∧ raceOutcomeB.storeCalls = [.createUser "bob"]
    ∧ raceOutcomeB.db.users.length = 2
    ∧ raceOutcomeB.db.users.map User.username = ["alice", "bob"] :=
  ⟨rfl, rfl, rfl, rfl, rfl, rfl, rfl⟩

/-- C10: every store state reachable through the public interface after
startup keeps `has_users()` true, and on every such state the register
handler answers "Registration is closed" without reaching `create_user` —
the store stays exactly the bootstrap account forever. -/
theorem registration_closed_after_bootstrap (hashFn : String → String)
    (db : Database) (h : Reachable hashFn db) :
    db.has_users = true
    ∧ ∀ form : RegisterRequest,
        register hashFn form db =
          ⟨db, none,
            ⟨403, .api false "Registration is closed. An account already exists."⟩,
            [.hasUsers]⟩ := by
  induction h with
  | init db hnew =>
    have hval : Database.new hashFn Database.empty = .ok (bootstrapDb hashFn) := rfl
    rw [hval] at hnew
    obtain rfl : bootstrapDb hashFn = db := Except.ok.inj hnew
    exact ⟨rfl, fun form => rfl⟩
  | step db form hr ih =>
    have hdb : (register hashFn form db).db = db := by rw [ih.2 form]
    rw [hdb]
    exact ih

/-- C10 witness: from the bootstrap state itself, any registration attempt
is rejected unchanged. -/
theorem registration_closed_after_bootstrap_witness :
    (bootstrapDb id).has_users = true
    ∧ ∀ form : RegisterRequest,
        register id form (bootstrapDb id) =
          ⟨bootstrapDb id, none,
            ⟨403, .api false "Registration is closed. An account already exists."⟩,
            [.hasUsers]⟩ :=
  registration_closed_after_bootstrap id (bootstrapDb id) (.init _ rfl)
